import Mathlib

/-!
Verification of the docling-serve client
(`examples/client/docling_serve_client.py`) against its specification.

The Python module is shallowly embedded: JSON values and HTTP responses are
explicit data, exceptions become `Except` errors, and the effects the spec
talks about (file handles opened/closed, HTTP requests issued, sleeps and
polls) are recorded as explicit event data in the results of the embedded
functions.
-/

/-- A parsed JSON value, as produced by `resp.json()` / `json.dumps`. -/
inductive JsonVal where
  | str (s : String)
  | num (n : Int)
  | bool (b : Bool)
  | null
  | arr (elems : List JsonVal)
  | obj (fields : List (String × JsonVal))

/-- The Python exceptions raised by the module.  `apiError` is the generic
`Exception(f"API error {status_code}: {error}")` raised by `_request`. -/
inductive PyError where
  | fileNotFound (msg : String)
  | apiError (status : Nat) (body : JsonVal)
  | keyError (key : String)
  | attributeError (name : String)
  | typeError (msg : String)
  | runtimeError (msg : String)

mutual

/-- Python `repr` of a parsed-JSON value (used by `str()` on dicts/lists and
by f-string interpolation of the error body in `_request`). -/
def pyRepr : JsonVal → String
  | .str s => "\x27" ++ s ++ "\x27"
  | .num n => toString n
  | .bool b => if b then "True" else "False"
  | .null => "None"
  | .arr xs => "[" ++ String.intercalate ", " (pyReprList xs) ++ "]"
  | .obj fs => "\x7b" ++ String.intercalate ", " (pyReprFields fs) ++ "\x7d"

/-- `repr` of each element of a Python list. -/
def pyReprList : List JsonVal → List String
  | [] => []
  | x :: xs => pyRepr x :: pyReprList xs

/-- `repr` of each `key: value` entry of a Python dict. -/
def pyReprFields : List (String × JsonVal) → List String
  | [] => []
  | (k, v) :: fs => ("\x27" ++ k ++ "\x27: " ++ pyRepr v) :: pyReprFields fs

end

/-- Python `str()` of a parsed-JSON value: identity on strings, `repr`-like
otherwise. -/
def pyStr : JsonVal → String
  | .str s => s
  | v => pyRepr v

/-- Bool-valued substring test, for Python `needle in someString`. -/
def strContains (s needle : String) : Bool :=
  (List.range (s.length + 1)).any (fun i => needle.isPrefixOf (s.drop i))

/-- First-match association lookup, for Python dict indexing / `.get`. -/
def lookupField (fields : List (String × JsonVal)) (key : String) : Option JsonVal :=
  match fields with
  | [] => none
  | (k, v) :: fs => if k = key then some v else lookupField fs key

/-- Python membership test `needle in container` for a string needle: key
membership for a dict, element equality for a list, substring for a string;
`TypeError` for non-container values. -/
def pyIn (needle : String) : JsonVal → Except PyError Bool
  | .obj fs => .ok (fs.any (fun kv => kv.1 = needle))
  | .arr xs => .ok (xs.any (fun v => match v with | .str s => s = needle | _ => false))
  | .str s => .ok (strContains s needle)
  | _ => .error (.typeError "argument is not iterable")

/-- Embedding of the nested helper `extract_markdown` in `process_pdf`:

    if isinstance(data, dict):
        if "md_content" in data["document"]:
            return str(data.get("document").get("md_content"))
    return None

`data["document"]` raises `KeyError` when the key is absent; `.get` on a
non-dict raises `AttributeError`; `.get` of a missing key yields `None`,
so `str(...)` would yield `"None"`. -/
def extract_markdown (data : JsonVal) : Except PyError (Option String) :=
  match data with
  | .obj fields =>
    match lookupField fields "document" with
    | none => .error (.keyError "document")
    | some doc =>
      match pyIn "md_content" doc with
      | .error e => .error e
      | .ok true =>
        match doc with
        | .obj dfields =>
          match lookupField dfields "md_content" with
          | some v => .ok (some (pyStr v))
          | none => .ok (some (pyStr .null))
        | _ => .error (.attributeError "get")
      | .ok false => .ok none
  | _ => .ok none

/-- C9: For the ConversionResult mapping
`{"document": {"md_content": "# Title"}}`, `extract_markdown` returns the
extracted text `"# Title"`. -/
theorem extract_markdown_md_content_roundtrip :
    extract_markdown (.obj [("document", .obj [("md_content", .str "# Title")])]) =
      .ok (some "# Title") := rfl

/-- C4 (code bug): on a mapping with no `document` key, `extract_markdown`
does not return absence — the membership test indexes `data["document"]`
directly, so it raises `KeyError("document")`, contradicting the spec
(and the defensive `.get` chain two lines below). -/
theorem extract_markdown_missing_document_raises :
    extract_markdown (.obj []) = .error (.keyError "document") := rfl

/-- `WAITING_TIME = 2`, the module-level poll interval in seconds. -/
def WAITING_TIME : Nat := 2

/-- The task-status values of the service protocol. -/
inductive TaskStatus where
  | pending
  | started
  | success
  | failure
deriving DecidableEq

/-- The wire string carried in the `task_status` field of a poll response. -/
def TaskStatus.wire : TaskStatus → String
  | .pending => "pending"
  | .started => "started"
  | .success => "success"
  | .failure => "failure"

/-- Observable effects of the polling loop: each loop iteration records a
`time.sleep` and one status poll (the GET to `/v1/status/poll/{task_id}`,
numbered by how many polls came before it). -/
inductive Event where
  | sleep (secs : Nat)
  | poll (n : Nat)
deriving DecidableEq

/-- Embedding of the body of `DoclingServeClient.wait_for_success`:

    status_is_done = False
    while status_is_done != True:
        time.sleep(WAITING_TIME)
        resp = self._request("GET", f"/v1/status/poll/{task_id}", ...).json()
        if resp["task_status"] == "success":
            status_is_done = True
    return status_is_done

`status_of n` is the `task_status` field of the n-th poll response (each
poll HTTP call is assumed to succeed; the service is external).  `fuel`
bounds how many iterations we observe, since the Python loop has no bound
of its own: the result is the list of sleep/poll events performed together
with `some true` when the loop returned within `fuel` iterations, and
`none` when after `fuel` iterations it is still looping. -/
def wait_for_success_aux (status_of : Nat → TaskStatus) :
    Nat → Nat → List Event × Option Bool
  | _, 0 => ([], none)
  | polls, fuel + 1 =>
    let iter : List Event := [Event.sleep WAITING_TIME, Event.poll polls]
    if (status_of polls).wire = "success" then
      (iter, some true)
    else
      let rest := wait_for_success_aux status_of (polls + 1) fuel
      (iter ++ rest.1, rest.2)

/-- `wait_for_success` starting from zero polls performed. -/
def wait_for_success (status_of : Nat → TaskStatus) (fuel : Nat) :
    List Event × Option Bool :=
  wait_for_success_aux status_of 0 fuel

/-- The event trace of `fuel` completed loop iterations starting at poll
number `start`: sleep, poll, sleep, poll, ... -/
def pollTrace : Nat → Nat → List Event
  | _, 0 => []
  | start, fuel + 1 =>
    Event.sleep WAITING_TIME :: Event.poll start :: pollTrace (start + 1) fuel

theorem TaskStatus.wire_eq_success_iff (st : TaskStatus) :
    st.wire = "success" ↔ st = .success := by
  cases st <;> simp [TaskStatus.wire]

/-- C6: on the status sequence pending, started, success the loop returns
only after observing `success` (the third poll), and the event trace is
exactly one sleep of `WAITING_TIME` before each of the three polls —
no busy-polling, no poll after the terminal status. -/
theorem wait_for_success_pending_started_success
    (status_of : Nat → TaskStatus) (fuel : Nat)
    (h0 : status_of 0 = .pending) (h1 : status_of 1 = .started)
    (h2 : status_of 2 = .success) (hf : 3 ≤ fuel) :
    wait_for_success status_of fuel =
      ([Event.sleep WAITING_TIME, Event.poll 0,
        Event.sleep WAITING_TIME, Event.poll 1,
        Event.sleep WAITING_TIME, Event.poll 2], some true) := by
  obtain ⟨k, rfl⟩ : ∃ k, fuel = k + 3 := ⟨fuel - 3, by omega⟩
  simp [wait_for_success, wait_for_success_aux, h0, h1, h2, TaskStatus.wire]

/-- Closed witness for C6 at a concrete status sequence and fuel 3. -/
theorem wait_for_success_pending_started_success_witness :
    wait_for_success
        (fun n => if n = 0 then .pending else if n = 1 then .started else .success) 3 =
      ([Event.sleep WAITING_TIME, Event.poll 0,
        Event.sleep WAITING_TIME, Event.poll 1,
        Event.sleep WAITING_TIME, Event.poll 2], some true) :=
  wait_for_success_pending_started_success
    (fun n => if n = 0 then .pending else if n = 1 then .started else .success) 3
    rfl rfl rfl (by decide)

/-- C1 counterexample: with every poll reporting `failure`, the loop keeps
sleeping and polling — polls 1 and 2 are issued after the terminal
`failure` was observed at poll 0 — and it neither returns nor raises any
`TaskFailedError` (the loop body inspects only `== "success"`). -/
theorem wait_for_success_failure_keeps_polling_cex :
    wait_for_success (fun _ => TaskStatus.failure) 3 =
      ([Event.sleep WAITING_TIME, Event.poll 0,
        Event.sleep WAITING_TIME, Event.poll 1,
        Event.sleep WAITING_TIME, Event.poll 2], none) := by decide

theorem wait_for_success_aux_no_success (status_of : Nat → TaskStatus) :
    ∀ (fuel start : Nat),
      (∀ n, start ≤ n → n < start + fuel → status_of n ≠ .success) →
      wait_for_success_aux status_of start fuel = (pollTrace start fuel, none) := by
  intro fuel
  induction fuel with
  | zero => intro start _; rfl
  | succ k ih =>
    intro start h
    have hstart : status_of start ≠ .success := h start (Nat.le_refl start) (by omega)
    have hwire : ¬ (status_of start).wire = "success" := by
      simpa [TaskStatus.wire_eq_success_iff] using hstart
    simp only [wait_for_success_aux, pollTrace, if_neg hwire]
    rw [ih (start + 1) (fun n h1 h2 => h n (by omega) (by omega))]
    simp

/-- C1 amended: `wait_for_success` treats only `success` as terminal.  When
no poll reports `success` — in particular when the status has become the
terminal `failure` — the loop raises nothing and never stops: every one of
the `fuel` observed iterations sleeps and polls again, and the loop has
not returned. -/
theorem wait_for_success_non_success_never_stops
    (status_of : Nat → TaskStatus) (fuel : Nat)
    (h : ∀ n, n < fuel → status_of n ≠ .success) :
    wait_for_success status_of fuel = (pollTrace 0 fuel, none) :=
  wait_for_success_aux_no_success status_of fuel 0 (fun n _ hn => h n (by omega))

/-- Closed witness for the amended C1: constant `failure`, fuel 2. -/
theorem wait_for_success_non_success_never_stops_witness :
    wait_for_success (fun _ => TaskStatus.failure) 2 = (pollTrace 0 2, none) :=
  wait_for_success_non_success_never_stops (fun _ => TaskStatus.failure) 2
    (by decide)

/-- A local path together with the file-system fact `Path(path).exists()`. -/
structure FileSpec where
  path : String
  pathExists : Bool
deriving DecidableEq

/-- Embedding of the for-loop at the top of
`DoclingServeClient.process_file_async`:

    for file_path in files:
        file_path = Path(file_path)
        if not file_path.exists():
            raise FileNotFoundError(f"File not found: {file_path}")
        file_handle = open(file_path, "rb")
        file_handles.append(file_handle)
        files_data.append(("files", (file_path.name, file_handle, "application/pdf")))

Existence check and `open` are interleaved per file.  Returns the paths
whose handles were opened (in order) and the error, if one was raised;
handles opened before the error remain in the list. -/
def openFilesLoop : List FileSpec → List String × Option PyError
  | [] => ([], none)
  | f :: rest =>
    if f.pathExists then
      let r := openFilesLoop rest
      (f.path :: r.1, r.2)
    else
      ([], some (.fileNotFound ("File not found: " ++ f.path)))

/-- The observable outcome of one `process_file_async` call. -/
structure ProcFileResult where
  /-- Paths opened by the for-loop, in order (indices are handle ids). -/
  opened : List String
  /-- Handle indices closed by the `finally` block, in order. -/
  closed : List Nat
  /-- Number of HTTP requests issued. -/
  httpCalls : Nat
  /-- The value returned, or the exception propagated to the caller. -/
  outcome : Except PyError JsonVal

/-- Embedding of `DoclingServeClient.process_file_async`: run the open
loop; if it raised, the exception propagates before the `try` block, so no
HTTP request was issued and no handle is closed.  Otherwise the `try` body
runs — the POST to `/v1/convert/file/async` followed by `wait_for_success`
polling and the result fetch; `body` abstracts its terminating outcome
(returned JSON, or any exception: the status-error `apiError` raised by
`_request`, a `keyError` from the response, ...) and `bodyCalls` the HTTP
requests the body issued beyond the initial POST — and in every case the
`finally` block closes each handle of `file_handles` once, in order. -/
def process_file_async (files : List FileSpec)
    (body : Except PyError JsonVal) (bodyCalls : Nat) : ProcFileResult :=
  match openFilesLoop files with
  | (opened, some e) =>
    { opened := opened, closed := [], httpCalls := 0, outcome := .error e }
  | (opened, none) =>
    { opened := opened,
      closed := List.range opened.length,
      httpCalls := bodyCalls + 1,
      outcome := body }

theorem openFilesLoop_all_exist (files : List FileSpec)
    (h : ∀ f ∈ files, f.pathExists = true) :
    openFilesLoop files = (files.map FileSpec.path, none) := by
  induction files with
  | nil => rfl
  | cons f fs ih =>
    have hf : f.pathExists = true := h f (by simp)
    simp [openFilesLoop, hf, ih (fun g hg => h g (by simp [hg]))]

theorem process_file_async_all_exist (files : List FileSpec)
    (body : Except PyError JsonVal) (bodyCalls : Nat)
    (h : ∀ f ∈ files, f.pathExists = true) :
    process_file_async files body bodyCalls =
      { opened := files.map FileSpec.path,
        closed := List.range (files.map FileSpec.path).length,
        httpCalls := bodyCalls + 1,
        outcome := body } := by
  unfold process_file_async
  rw [openFilesLoop_all_exist files h]

/-- C2: when every path exists (so every `open` succeeds), a handle is
opened for each file and the `finally` block closes each opened handle
exactly once — whatever the try-body did: transport success, a status
error raised by `_request`, or any other exception. -/
theorem process_file_async_closes_each_handle_once
    (files : List FileSpec) (body : Except PyError JsonVal) (bodyCalls : Nat)
    (h : ∀ f ∈ files, f.pathExists = true) :
    (process_file_async files body bodyCalls).opened.length = files.length ∧
    (process_file_async files body bodyCalls).closed =
      List.range (process_file_async files body bodyCalls).opened.length ∧
    (∀ i < (process_file_async files body bodyCalls).opened.length,
      (process_file_async files body bodyCalls).closed.count i = 1) ∧
    (process_file_async files body bodyCalls).outcome = body := by
  rw [process_file_async_all_exist files body bodyCalls h]
  refine ⟨by simp, rfl, ?_, rfl⟩
  intro i hi
  exact List.count_eq_one_of_mem (List.nodup_range _)
    (by simpa using hi)

/-- Closed witness for C2: one existing file, the try-body raising a
status error; the single opened handle is closed exactly once. -/
theorem process_file_async_closes_each_handle_once_witness :
    (process_file_async [⟨"a.pdf", true⟩] (.error (.apiError 404 .null)) 0).opened.length = 1 ∧
    (process_file_async [⟨"a.pdf", true⟩] (.error (.apiError 404 .null)) 0).closed =
      List.range (process_file_async [⟨"a.pdf", true⟩] (.error (.apiError 404 .null)) 0).opened.length ∧
    (∀ i < (process_file_async [⟨"a.pdf", true⟩] (.error (.apiError 404 .null)) 0).opened.length,
      (process_file_async [⟨"a.pdf", true⟩] (.error (.apiError 404 .null)) 0).closed.count i = 1) ∧
    (process_file_async [⟨"a.pdf", true⟩] (.error (.apiError 404 .null)) 0).outcome =
      .error (.apiError 404 .null) :=
  process_file_async_closes_each_handle_once [⟨"a.pdf", true⟩]
    (.error (.apiError 404 .null)) 0 (by decide)

/-- C3 counterexample: for the file list `["a.pdf" (exists), "b.pdf"
(missing)]`, `process_file_async` raises `FileNotFoundError` for `b.pdf`
with the stream for `a.pdf` already opened — existence is not checked
before any stream is opened, so partial resource acquisition occurs. -/
theorem process_file_async_opens_before_later_check_cex :
    (process_file_async [⟨"a.pdf", true⟩, ⟨"b.pdf", false⟩] (.ok .null) 0).outcome =
        .error (.fileNotFound "File not found: b.pdf") ∧
    (process_file_async [⟨"a.pdf", true⟩, ⟨"b.pdf", false⟩] (.ok .null) 0).opened =
        ["a.pdf"] :=
  ⟨rfl, rfl⟩

theorem openFilesLoop_first_missing (pre : List FileSpec) (f : FileSpec)
    (post : List FileSpec)
    (hpre : ∀ g ∈ pre, g.pathExists = true) (hf : f.pathExists = false) :
    openFilesLoop (pre ++ f :: post) =
      (pre.map FileSpec.path,
        some (.fileNotFound ("File not found: " ++ f.path))) := by
  induction pre with
  | nil => simp [openFilesLoop, hf]
  | cons g gs ih =>
    have hg : g.pathExists = true := hpre g (by simp)
    simp [openFilesLoop, hg, ih (fun x hx => hpre x (by simp [hx]))]

/-- C3 amended: the existence check is interleaved with opening, one file
at a time, so when the first missing path comes after `pre` existing
paths, `process_file_async` raises `FileNotFoundError` with the streams
for all of `pre` already opened (and, the error preceding the
`try/finally`, none of them closed); no HTTP request is issued.  Zero
streams are opened only when the first path is the missing one. -/
theorem process_file_async_partial_acquisition
    (pre : List FileSpec) (f : FileSpec) (post : List FileSpec)
    (body : Except PyError JsonVal) (bodyCalls : Nat)
    (hpre : ∀ g ∈ pre, g.pathExists = true) (hf : f.pathExists = false) :
    (process_file_async (pre ++ f :: post) body bodyCalls).outcome =
        .error (.fileNotFound ("File not found: " ++ f.path)) ∧
    (process_file_async (pre ++ f :: post) body bodyCalls).opened =
        pre.map FileSpec.path ∧
    (process_file_async (pre ++ f :: post) body bodyCalls).closed = [] ∧
    (process_file_async (pre ++ f :: post) body bodyCalls).httpCalls = 0 := by
  unfold process_file_async
  rw [openFilesLoop_first_missing pre f post hpre hf]
  exact ⟨rfl, rfl, rfl, rfl⟩

/-- Closed witness for the amended C3. -/
theorem process_file_async_partial_acquisition_witness :
    (process_file_async ([⟨"a.pdf", true⟩] ++ ⟨"b.pdf", false⟩ :: []) (.ok .null) 0).outcome =
        .error (.fileNotFound ("File not found: " ++ "b.pdf")) ∧
    (process_file_async ([⟨"a.pdf", true⟩] ++ ⟨"b.pdf", false⟩ :: []) (.ok .null) 0).opened =
        List.map FileSpec.path [⟨"a.pdf", true⟩] ∧
    (process_file_async ([⟨"a.pdf", true⟩] ++ ⟨"b.pdf", false⟩ :: []) (.ok .null) 0).closed = [] ∧
    (process_file_async ([⟨"a.pdf", true⟩] ++ ⟨"b.pdf", false⟩ :: []) (.ok .null) 0).httpCalls = 0 :=
  process_file_async_partial_acquisition [⟨"a.pdf", true⟩] ⟨"b.pdf", false⟩ []
    (.ok .null) 0 (by decide) rfl

theorem openFilesLoop_missing_raises (files : List FileSpec)
    (h : ∃ f ∈ files, f.pathExists = false) :
    ∃ opened p, openFilesLoop files =
      (opened, some (PyError.fileNotFound ("File not found: " ++ p))) := by
  induction files with
  | nil => simp at h
  | cons g gs ih =>
    by_cases hg : g.pathExists = true
    · have h2 : ∃ f ∈ gs, f.pathExists = false := by
        obtain ⟨f, hf, hfe⟩ := h
        rcases List.mem_cons.mp hf with rfl | hmem
        · rw [hg] at hfe
          exact absurd hfe (by simp)
        · exact ⟨f, hmem, hfe⟩
      obtain ⟨opened, p, hp⟩ := ih h2
      exact ⟨g.path :: opened, p, by simp [openFilesLoop, hg, hp]⟩
    · exact ⟨[], g.path, by simp [openFilesLoop, hg]⟩

/-- C8: when some path in the list does not exist, `process_file_async`
raises `FileNotFoundError` from the open loop, before the `try` block is
entered — zero HTTP requests have been issued (a transport spy would
record no calls). -/
theorem process_file_async_no_http_when_missing (files : List FileSpec)
    (body : Except PyError JsonVal) (bodyCalls : Nat)
    (h : ∃ f ∈ files, f.pathExists = false) :
    (process_file_async files body bodyCalls).httpCalls = 0 ∧
    ∃ p, (process_file_async files body bodyCalls).outcome =
      .error (.fileNotFound ("File not found: " ++ p)) := by
  obtain ⟨opened, p, hp⟩ := openFilesLoop_missing_raises files h
  unfold process_file_async
  rw [hp]
  exact ⟨rfl, p, rfl⟩

/-- Closed witness for C8: a single missing path. -/
theorem process_file_async_no_http_when_missing_witness :
    (process_file_async [⟨"missing.pdf", false⟩] (.ok .null) 0).httpCalls = 0 ∧
    ∃ p, (process_file_async [⟨"missing.pdf", false⟩] (.ok .null) 0).outcome =
      .error (.fileNotFound ("File not found: " ++ p)) :=
  process_file_async_no_http_when_missing [⟨"missing.pdf", false⟩] (.ok .null) 0
    ⟨⟨"missing.pdf", false⟩, by simp, rfl⟩

/-- An HTTP response as seen by `_request`: status code, raw text, and the
result of `resp.json()` — `some v` when the body parses as JSON, `none`
when `resp.json()` raises (body not structured JSON). -/
structure HttpResponse where
  status_code : Nat
  text : String
  jsonBody : Option JsonVal

/-- Embedding of the error-mapping tail of `DoclingServeClient._request`:

    resp = self.client.request(method, url, **kwargs)
    if resp.status_code >= 400:
        try:
            error = resp.json()
        except:
            error = ("message": resp.text)
        raise Exception(f"API error (status_code): (error)")
    return resp

(parentheses stand for the Python dict/interpolation braces).

`resp` is the response the underlying `httpx` client produced. -/
def _request (resp : HttpResponse) : Except PyError HttpResponse :=
  if resp.status_code ≥ 400 then
    let error : JsonVal :=
      match resp.jsonBody with
      | some v => v
      | none => .obj [("message", .str resp.text)]
    .error (.apiError resp.status_code error)
  else
    .ok resp

/-- C5: every response with status ≥ 400 is raised as the API error
carrying the numeric status code and the parsed JSON body, falling back
to a `message` wrapper around the raw text when the body is not JSON;
every response below 400 is returned unchanged. -/
theorem request_error_mapping (resp : HttpResponse) :
    (resp.status_code ≥ 400 →
      _request resp = .error (.apiError resp.status_code
        (match resp.jsonBody with
         | some v => v
         | none => .obj [("message", .str resp.text)]))) ∧
    (resp.status_code < 400 → _request resp = .ok resp) := by
  constructor
  · intro h
    simp [_request, h]
  · intro h
    simp [_request, Nat.not_le.mpr h]

/-- Closed witness for C5: a 404 with JSON body `{"message": "not found"}`
is raised with code 404 and that body, and a 200 is returned unchanged. -/
theorem request_error_mapping_witness :
    _request ⟨404, "not found", some (.obj [("message", .str "not found")])⟩ =
      .error (.apiError 404 (.obj [("message", .str "not found")])) ∧
    _request ⟨200, "ok", none⟩ = .ok ⟨200, "ok", none⟩ :=
  ⟨(request_error_mapping ⟨404, "not found", some (.obj [("message", .str "not found")])⟩).1
      (by decide),
   (request_error_mapping ⟨200, "ok", none⟩).2 (by decide)⟩

/-- The Python `str()` of each exception, as interpolated by
`f"PDF conversion failed: (e)"` in `process_pdf` (parentheses stand for
the interpolation braces). -/
def PyError.message : PyError → String
  | .fileNotFound m => m
  | .apiError status body => "API error " ++ toString status ++ ": " ++ pyRepr body
  | .keyError k => "\x27" ++ k ++ "\x27"
  | .attributeError m => m
  | .typeError m => m
  | .runtimeError m => m

/-- The observable outcome of one `process_url_async` call. -/
structure ProcUrlResult where
  /-- The `request` dict the function builds. -/
  requestBody : JsonVal
  /-- Number of HTTP requests issued. -/
  httpCalls : Nat
  /-- The value returned, or the exception propagated to the caller. -/
  outcome : Except PyError JsonVal

/-- Embedding of the module-level function `process_url_async`:

    request = ("url": url_path, "model": "docling-minilm-legacy", "pages": "all")
    resp = client.request(method, url_path, **kwargs)
    return TaskStatusResponse.model_validate(resp.json())

The `request` dict never includes `selected_option`, and the call line
evaluates `client.request` — an attribute `DoclingServeClient` does not
define (the intended `self._request("POST", PROCESS_URL_ENDPOINT,
json=request)` is commented out; `method` and `kwargs` are also unbound
names) — so every call raises `AttributeError` before issuing any HTTP
request. -/
def process_url_async (url_path : String) (selected_option : String) : ProcUrlResult :=
  { requestBody := .obj [("url", .str url_path),
      ("model", .str "docling-minilm-legacy"), ("pages", .str "all")],
    httpCalls := 0,
    outcome := .error (.attributeError "request") }

/-- C7 (code bug): the scenario of the spec cannot happen — at the spec's
input, `process_url_async` raises `AttributeError` having issued zero HTTP
requests, and the request dict it built contains neither the options nor
any field derived from `selected_option`. -/
theorem process_url_async_broken_call :
    (process_url_async "https://example.org/doc.pdf" "markdown").outcome =
        .error (.attributeError "request") ∧
    (process_url_async "https://example.org/doc.pdf" "markdown").httpCalls = 0 ∧
    (process_url_async "https://example.org/doc.pdf" "markdown").requestBody =
        .obj [("url", .str "https://example.org/doc.pdf"),
          ("model", .str "docling-minilm-legacy"), ("pages", .str "all")] :=
  ⟨rfl, rfl, rfl⟩

/-- Embedding of the module-level `process_pdf`:

    pdf_file = Path(pdf_path)
    if not pdf_file.exists():
        raise FileNotFoundError(f"PDF file not found: (pdf_path)")
    options = ("output_format": selected_option)
    try:
        resp = client.process_file_async([pdf_path], options)
        markdown = extract_markdown(resp)
        return markdown
    except Exception as e:
        raise RuntimeError(f"PDF conversion failed: (e)")

(parentheses stand for the Python braces).  `conv` abstracts the outcome
of the `client.process_file_async(...)` call: its returned JSON, or
whatever exception it raised — the inner `FileNotFoundError`, the
`apiError` from `_request`, a `keyError` from the response, ...; all of
those are `Exception` subclasses, so the `except` clause catches every
one of them. -/
def process_pdf (pdf : FileSpec) (conv : Except PyError JsonVal) :
    Except PyError (Option String) :=
  if pdf.pathExists then
    match conv with
    | .error e =>
      .error (.runtimeError ("PDF conversion failed: " ++ e.message))
    | .ok resp =>
      match extract_markdown resp with
      | .error e =>
        .error (.runtimeError ("PDF conversion failed: " ++ e.message))
      | .ok md => .ok md
  else
    .error (.fileNotFound ("PDF file not found: " ++ pdf.path))

/-- C10: when the top-level pdf path exists, every exception raised inside
the `try` block — by the conversion call or by `extract_markdown` — is
re-raised as `RuntimeError("PDF conversion failed: ...")`, and every error
`process_pdf` propagates from that branch is a `RuntimeError` (the caller
never receives the original typed error); only the pre-check
`FileNotFoundError` for the pdf path itself, raised before the `try`,
escapes with its own type. -/
theorem process_pdf_wraps_all_inner_errors
    (pdf : FileSpec) (conv : Except PyError JsonVal) :
    (∀ e, conv = .error e → pdf.pathExists = true →
      process_pdf pdf conv =
        .error (.runtimeError ("PDF conversion failed: " ++ e.message))) ∧
    (∀ resp e, conv = .ok resp → extract_markdown resp = .error e →
      pdf.pathExists = true →
      process_pdf pdf conv =
        .error (.runtimeError ("PDF conversion failed: " ++ e.message))) ∧
    (∀ e, pdf.pathExists = true → process_pdf pdf conv = .error e →
      ∃ m, e = .runtimeError m) ∧
    (pdf.pathExists = false →
      process_pdf pdf conv =
        .error (.fileNotFound ("PDF file not found: " ++ pdf.path))) := by
  refine ⟨?_, ?_, ?_, ?_⟩
  · intro e hconv hex
    subst hconv
    simp [process_pdf, hex]
  · intro resp e hconv hext hex
    subst hconv
    simp [process_pdf, hex, hext]
  · intro e hex hproc
    simp only [process_pdf, hex, if_true] at hproc
    cases hc : conv with
    | error e2 =>
      rw [hc] at hproc
      simp at hproc
      exact ⟨_, hproc.symm⟩
    | ok resp =>
      rw [hc] at hproc
      cases hext : extract_markdown resp with
      | error e2 =>
        simp [hext] at hproc
        exact ⟨_, hproc.symm⟩
      | ok md =>
        simp [hext] at hproc
  · intro hex
    simp [process_pdf, hex]

/-- Closed witness for C10: an API error from the conversion call comes
back as `RuntimeError`; a missing pdf path raises `FileNotFoundError`
before the `try`. -/
theorem process_pdf_wraps_all_inner_errors_witness :
    process_pdf ⟨"doc.pdf", true⟩ (.error (.apiError 500 (.obj []))) =
      .error (.runtimeError ("PDF conversion failed: " ++
        (PyError.apiError 500 (.obj [])).message)) ∧
    process_pdf ⟨"gone.pdf", false⟩ (.ok .null) =
      .error (.fileNotFound ("PDF file not found: " ++ "gone.pdf")) :=
  ⟨(process_pdf_wraps_all_inner_errors ⟨"doc.pdf", true⟩
      (.error (.apiError 500 (.obj [])))).1 (.apiError 500 (.obj [])) rfl rfl,
   (process_pdf_wraps_all_inner_errors ⟨"gone.pdf", false⟩ (.ok .null)).2.2.2 rfl⟩
